import Mathlib

/-!
Shallow embedding of the PowerPoint slicer repository (pptx_slicer.py and
api.py).  External effects (filesystem, LibreOffice subprocess, PowerPoint COM
automation, pdf2image) are modelled by explicit environment records: machine
state the code reads is a parameter, and files or directories the code would
create are returned explicitly in an effects record.
-/

/-- Python exception values that the embedded code can raise. -/
inductive PyExc where
  | httpException (status : Nat) (detail : String)
  | fileNotFoundError (msg : String)
  | runtimeError (msg : String)
  | importError (msg : String)
  | comError (msg : String)
deriving Repr, DecidableEq

/-- Python str(e) for the exceptions above; a FastAPI HTTPException prints as
"status: detail". -/
def pyStr : PyExc → String
  | .httpException s d => toString s ++ ": " ++ d
  | .fileNotFoundError m => m
  | .runtimeError m => m
  | .importError m => m
  | .comError m => m

/-- Directories and files the code creates on disk. -/
structure FsEffects where
  dirs : List String
  files : List String
deriving Repr, DecidableEq

/-- Sequencing of filesystem effects. -/
def fsApp (a b : FsEffects) : FsEffects := ⟨a.dirs ++ b.dirs, a.files ++ b.files⟩

/-- No filesystem effect. -/
def noFs : FsEffects := ⟨[], []⟩

/-- os.path.join with the POSIX separator. -/
def pathJoin (a b : String) : String := a ++ "/" ++ b

/-- Python str.lower. -/
def pyLower (s : String) : String := ⟨s.data.map Char.toLower⟩

/-- Python str.endswith for a single suffix. -/
def pyEndsWith (s suffix : String) : Bool := suffix.data.isSuffixOf s.data

/-- api.py line 90: request.file_path.lower().endswith((".pptx", ".ppt")). -/
def validExtension (s : String) : Bool :=
  pyEndsWith (pyLower s) ".pptx" || pyEndsWith (pyLower s) ".ppt"

/-- api.py line 97: request.image_format.lower() in [png, jpg, jpeg]. -/
def validImageFormat (s : String) : Bool :=
  pyLower s == "png" || pyLower s == "jpg" || pyLower s == "jpeg"

/-- Image extension normalisation used by both backends (pptx_slicer.py lines
103-105 and 183-185): ext = format.lower(), and "jpeg" becomes "jpg". -/
def normExt (fmt : String) : String :=
  let e := pyLower fmt
  if e == "jpeg" then "jpg" else e

/-- The part of the machine state the slicer reads: which paths exist, and the
slide list (relationship id paired with slide content) and stem of the source
presentation that python-pptx would load from the input file. -/
structure World (α : Type) where
  fileExists : String → Bool
  pres : List (Nat × α)
  stem : String

/-- One iteration of the slide-removal loop (pptx_slicer.py lines 263-266):
read the rId at index idx, drop that relationship, delete index idx.  The
index is always in range at every call site; an out-of-range index would be a
Python IndexError and is modelled as a no-op branch that is never reached. -/
def removeStep {α : Type} (st : List (Nat × α) × List Nat) (idx : Nat) :
    List (Nat × α) × List Nat :=
  match st.1[idx]? with
  | some e => (st.1.eraseIdx idx, st.2 ++ [e.1])
  | none => st

/-- pptx_slicer.py lines 258-266: slides_to_remove = list(range(total)) with
slide_idx removed, iterated in reversed order, dropping each slide and its
relationship from a fresh copy of the source presentation. -/
def makeSingleSlide {α : Type} (pres : List (Nat × α)) (k : Nat) :
    List (Nat × α) × List Nat :=
  (((List.range pres.length).erase k).reverse).foldl removeStep (pres, [])

/-- One saved single-slide output file: its path, the slide list it contains
and the relationship ids dropped while producing it. -/
structure SplitOut (α : Type) where
  path : String
  slides : List (Nat × α)
  droppedRels : List Nat
deriving Repr, DecidableEq

/-- pptx_slicer.split_pptx (lines 218-274): validate that the input exists,
create the output directory, then for each slide index save a fresh copy of
the presentation with every other slide removed. -/
def splitOuts {α : Type} (w : World α) (outputDirOpt : Option String) :
    List (SplitOut α) :=
  (List.range w.pres.length).map (fun k =>
    let st := makeSingleSlide w.pres k
    SplitOut.mk
      (pathJoin (outputDirOpt.getD (pathJoin "output" "pptx"))
        (w.stem ++ "_slide_" ++ toString (k + 1) ++ ".pptx"))
      st.1 st.2)

/-- pptx_slicer.split_pptx (lines 218-274), continued: the per-slide loop. -/
def split_pptx {α : Type} (w : World α) (inputFile : String)
    (outputDirOpt : Option String) :
    Except PyExc (List (SplitOut α)) × FsEffects :=
  if w.fileExists inputFile then
    let outs := splitOuts w outputDirOpt
    (.ok outs, ⟨[outputDirOpt.getD (pathJoin "output" "pptx")], outs.map SplitOut.path⟩)
  else
    (.error (.fileNotFoundError ("Input file not found: " ++ inputFile)), noFs)

/-- Outcomes of the external tools consulted by the image exporter. -/
structure ExportCfg where
  isWindows : Bool
  pathOk : String → Bool
  pywin32 : Bool
  comOpenOk : Bool
  comExportFailAt : Option Nat
  loReturncode : Nat
  loStderr : String
  pdfCreated : Bool
  pdf2image : Bool
  pdfPageCount : Nat

/-- Candidate LibreOffice locations (pptx_slicer.py lines 46-53). -/
def libreoffice_paths : List String :=
  ["libreoffice", "soffice", "/usr/bin/libreoffice", "/usr/bin/soffice",
   "C:\\Program Files\\LibreOffice\\program\\soffice.exe",
   "C:\\Program Files (x86)\\LibreOffice\\program\\soffice.exe"]

/-- The first candidate path for which shutil.which or os.path.exists holds
(pptx_slicer.py lines 55-59). -/
def findLibreOffice (cfg : ExportCfg) : Option String :=
  libreoffice_paths.find? (fun p => cfg.pathOk p)

/-- The RuntimeError message raised when no backend is available
(pptx_slicer.py lines 67-74). -/
def libreofficeHints : String :=
  "LibreOffice not found. Please install LibreOffice:\n- Ubuntu/Debian: sudo apt-get install libreoffice\n- CentOS/RHEL: sudo yum install libreoffice\n- macOS: brew install --cask libreoffice\n- Windows: Download from https://www.libreoffice.org/download/"

/-- Events on the COM application object, for the resource-release property. -/
inductive ComEvent where
  | dispatch
  | quit
deriving Repr, DecidableEq

/-- The slide-export loop of the COM backend (pptx_slicer.py lines 108-119):
slides 1..n in order, accumulating created image paths, stopping with an
exception if Export fails on some slide. -/
def comExportSlides (failAt : Option Nat) (outputDir stem ext : String) :
    Nat → Option PyExc × List String
  | 0 => (none, [])
  | n + 1 =>
    match comExportSlides failAt outputDir stem ext n with
    | (some e, fs) => (some e, fs)
    | (none, fs) =>
      if failAt == some (n + 1) then
        (some (.comError ("failed to export slide " ++ toString (n + 1))), fs)
      else
        (none, fs ++ [pathJoin outputDir (stem ++ "_slide_" ++ toString (n + 1) ++ "." ++ ext)])

/-- The try block of the COM backend (pptx_slicer.py lines 98-125):
Presentations.Open, the export loop, Close and return. -/
def comBody {α : Type} (w : World α) (cfg : ExportCfg) (outputDir fmt : String) :
    Except PyExc (List String) × List String :=
  if cfg.comOpenOk then
    match comExportSlides cfg.comExportFailAt outputDir w.stem (normExt fmt) w.pres.length with
    | (none, fs) => (.ok fs, fs)
    | (some e, fs) => (.error e, fs)
  else
    (.error (.comError "failed to open presentation"), [])

/-- The COM backend of pptx_slicer.py (lines 79-129, source name
_export_slides_windows_com): import pywin32, start PowerPoint with Dispatch,
run the body, and Quit in a finally clause.  Returns the result, the events on
the application object, and the image files written. -/
def comRun {α : Type} (w : World α) (cfg : ExportCfg) (outputDir fmt : String) :
    Except PyExc (List String) × List ComEvent × List String :=
  if cfg.pywin32 then
    let b := comBody w cfg outputDir fmt
    (b.1, [ComEvent.dispatch] ++ [ComEvent.quit], b.2)
  else
    (.error (.importError "pywin32 not installed. Install it with: pip install pywin32\nAlternatively, install LibreOffice for cross-platform support."), [], [])

/-- The LibreOffice backend (pptx_slicer.py lines 139-215, source name
_export_slides_libreoffice; the file defines it twice and the second
definition is the live one): convert the presentation to a PDF inside a
temporary directory, rasterize each PDF page with pdf2image, and save one
image per page, removing the temporary directory in a finally clause. -/
def export_slides_libreoffice {α : Type} (w : World α) (cfg : ExportCfg)
    (outputDir fmt cmd : String) : Except PyExc (List String) × FsEffects :=
  let tempDir := pathJoin outputDir "temp_pdf"
  if cfg.loReturncode != 0 then
    (.error (.runtimeError ("LibreOffice conversion failed: " ++ cfg.loStderr)),
     ⟨[tempDir], []⟩)
  else if !cfg.pdfCreated then
    (.error (.runtimeError ("PDF file not created: " ++ pathJoin tempDir (w.stem ++ ".pdf"))),
     ⟨[tempDir], []⟩)
  else if !cfg.pdf2image then
    (.error (.importError "pdf2image not installed. Install it with: pip install pdf2image\nAlso install poppler:\n- Ubuntu/Debian: sudo apt-get install poppler-utils\n- CentOS/RHEL: sudo yum install poppler-utils\n- macOS: brew install poppler\n- Windows: Download from https://github.com/oschwartz10612/poppler-windows/releases/"),
     ⟨[tempDir], []⟩)
  else
    let names := (List.range cfg.pdfPageCount).map (fun i =>
      pathJoin outputDir (w.stem ++ "_slide_" ++ toString (i + 1) ++ "." ++ normExt fmt))
    (.ok names, ⟨[tempDir], names⟩)

/-- pptx_slicer.export_slides_as_images (lines 16-76): create the output
directory, search for a LibreOffice executable; on Windows without LibreOffice
use the COM backend; without LibreOffice elsewhere raise a RuntimeError;
otherwise use the LibreOffice backend. -/
def export_slides_as_images {α : Type} (w : World α) (cfg : ExportCfg)
    (inputFile : String) (outputDirOpt : Option String) (fmt : String) :
    Except PyExc (List String) × FsEffects :=
  let outputDir := outputDirOpt.getD (pathJoin "output" "images")
  match findLibreOffice cfg with
  | none =>
    if cfg.isWindows then
      let r := comRun w cfg outputDir fmt
      (r.1, ⟨[outputDir], r.2.2⟩)
    else
      (.error (.runtimeError libreofficeHints), ⟨[outputDir], []⟩)
  | some cmd =>
    let r := export_slides_libreoffice w cfg outputDir fmt cmd
    (r.1, fsApp ⟨[outputDir], []⟩ r.2)

/-- pptx_slicer.split_pptx_with_images (lines 277-313): split into single-slide
files, then export images; the returned dictionary carries pptx_files,
image_files and total_slides = len(pptx_files). -/
def split_pptx_with_images {α : Type} (w : World α) (cfg : ExportCfg)
    (inputFile : String) (outputPptxDir outputImagesDir : Option String)
    (fmt : String) :
    Except PyExc (List (SplitOut α) × List String × Nat) × FsEffects :=
  match split_pptx w inputFile outputPptxDir with
  | (.error e, fx) => (.error e, fx)
  | (.ok pptxOuts, fx1) =>
    match export_slides_as_images w cfg inputFile outputImagesDir fmt with
    | (.error e, fx2) => (.error e, fsApp fx1 fx2)
    | (.ok imgs, fx2) => (.ok (pptxOuts, imgs, pptxOuts.length), fsApp fx1 fx2)

/-- api.SliceRequest. -/
structure SliceRequest where
  file_path : String
  output_pptx_dir : Option String
  output_images_dir : Option String
  generate_images : Bool
  image_format : String
deriving Repr, DecidableEq

/-- api.SliceResponse. -/
structure SliceResponse where
  success : Bool
  message : String
  total_slides : Nat
  pptx_files : List String
  image_files : Option (List String)
deriving Repr, DecidableEq

/-- What the /slice handler hands back to FastAPI: a response value, or an
HTTPException with a status code and detail string. -/
inductive Outcome where
  | response (r : SliceResponse)
  | httpError (status : Nat) (detail : String)
deriving Repr, DecidableEq

/-- The try block of api.slice_powerpoint (api.py lines 81-130). -/
def sliceBody {α : Type} (w : World α) (cfg : ExportCfg) (req : SliceRequest) :
    Except PyExc SliceResponse × FsEffects :=
  if !(w.fileExists req.file_path) then
    (.error (.httpException 404 ("File not found: " ++ req.file_path)), noFs)
  else if !(validExtension req.file_path) then
    (.error (.httpException 400 "File must be a PowerPoint file (.pptx or .ppt)"), noFs)
  else if !(validImageFormat req.image_format) then
    (.error (.httpException 400 "Image format must be \x27png\x27, \x27jpg\x27, or \x27jpeg\x27"), noFs)
  else if req.generate_images then
    match split_pptx_with_images w cfg req.file_path req.output_pptx_dir req.output_images_dir req.image_format with
    | (.error e, fx) => (.error e, fx)
    | (.ok res, fx) =>
      (.ok (SliceResponse.mk true
        ("Successfully split PowerPoint into " ++ toString res.2.2 ++ " slides (PPTX + images)")
        res.2.2 (res.1.map SplitOut.path) (some res.2.1)), fx)
  else
    match split_pptx w req.file_path req.output_pptx_dir with
    | (.error e, fx) => (.error e, fx)
    | (.ok pptxOuts, fx) =>
      (.ok (SliceResponse.mk true
        ("Successfully split PowerPoint into " ++ toString pptxOuts.length ++ " slides (PPTX only)")
        pptxOuts.length (pptxOuts.map SplitOut.path) none), fx)

/-- api.slice_powerpoint with its except clauses (api.py lines 132-138): a
FileNotFoundError maps to status 404; every other exception, including the
HTTPExceptions raised inside the try block, is caught by the blanket except
and re-raised as status 500 with a wrapped message. -/
def slice_powerpoint {α : Type} (w : World α) (cfg : ExportCfg) (req : SliceRequest) :
    Outcome × FsEffects :=
  match sliceBody w cfg req with
  | (.ok r, fx) => (.response r, fx)
  | (.error (.fileNotFoundError m), fx) => (.httpError 404 m, fx)
  | (.error e, fx) => (.httpError 500 ("Error processing PowerPoint file: " ++ pyStr e), fx)

/-- The output paths split_pptx produces, in slide order. -/
def splitPaths {α : Type} (w : World α) (outputDirOpt : Option String) : List String :=
  (List.range w.pres.length).map (fun k =>
    pathJoin (outputDirOpt.getD (pathJoin "output" "pptx"))
      (w.stem ++ "_slide_" ++ toString (k + 1) ++ ".pptx"))

/-- The image paths either backend produces for n pages or slides. -/
def imagePaths (outputDir stem fmt : String) (n : Nat) : List String :=
  (List.range n).map (fun i =>
    pathJoin outputDir (stem ++ "_slide_" ++ toString (i + 1) ++ "." ++ normExt fmt))

/-- Whether the exporter returned normally. -/
def exportSucceeded {α : Type} (w : World α) (cfg : ExportCfg) (inputFile : String)
    (outputDirOpt : Option String) (fmt : String) : Bool :=
  match (export_slides_as_images w cfg inputFile outputDirOpt fmt).1 with
  | .ok _ => true
  | .error _ => false

/-- Modelled from the spec wording of claim C1, for comparison with the code:
the three backends are attempted in order with the first success winning, each
backend failure is caught, and only exhaustion of all backends is fatal.  The
spec third backend, in-process extraction with a generated placeholder image
per slide when no embedded picture exists, always yields an image for a
loadable source, so exhaustion is impossible and under the claim the exporter
never returns a fatal error. -/
def exporterNeverFatal : Prop :=
  ∀ (w : World Unit) (cfg : ExportCfg) (inputFile : String)
    (outputDirOpt : Option String) (fmt : String),
    exportSucceeded w cfg inputFile outputDirOpt fmt = true

/-- World used by the counterexample to the spec claim about backend fallback:
a loadable two-slide presentation. -/
def wUnit : World Unit := ⟨fun _ => true, [(2, ()), (3, ())], "deck"⟩

/-- A LibreOffice executable is found but its conversion subprocess fails. -/
def cfgLoFail : ExportCfg :=
  ⟨false, fun p => p == "libreoffice", false, false, none, 1, "conversion crashed", false, false, 0⟩

/-- No LibreOffice executable anywhere and nothing else available. -/
def cfgNone : ExportCfg := ⟨false, fun _ => false, false, false, none, 0, "", false, false, 0⟩

/-- LibreOffice found and the whole toolchain succeeds with two PDF pages. -/
def cfgLoOk : ExportCfg :=
  ⟨false, fun p => p == "soffice", false, false, none, 0, "", true, true, 2⟩

/-- Windows with pywin32 present but Presentations.Open failing. -/
def cfgComOpenFail : ExportCfg :=
  ⟨true, fun _ => false, true, false, none, 0, "", false, false, 0⟩

/-- A machine where only the existing text file /tmp/report.txt is present. -/
def wC2 : World Unit := ⟨fun s => s == "/tmp/report.txt" || s == "/tmp/deck.pptx", [], "report"⟩

/-- A /slice request for an existing file with a non-PowerPoint extension. -/
def reqC2 : SliceRequest := ⟨"/tmp/report.txt", none, none, true, "png"⟩

/-- A /slice request for an existing .pptx file with an unsupported image format. -/
def reqC2fmt : SliceRequest := ⟨"/tmp/deck.pptx", none, none, true, "gif"⟩

/-- A machine where no file exists. -/
def wC3 : World Unit := ⟨fun _ => false, [], "missing"⟩

/-- A /slice request whose file path does not exist. -/
def reqC3 : SliceRequest := ⟨"missing.pptx", none, none, true, "png"⟩

/-- A three-slide presentation for the split witness. -/
def wC4 : World Nat := ⟨fun _ => true, [(4, 100), (5, 200), (6, 300)], "talk"⟩

/-- A two-slide presentation on a machine where everything exists. -/
def wTwo : World Unit := ⟨fun _ => true, [(7, ()), (8, ())], "demo"⟩

/-- The five-slide demo presentation of the spec example. -/
def wDemo5 : World Unit :=
  ⟨fun s => s == "demo.pptx", [(1, ()), (2, ()), (3, ()), (4, ()), (5, ())], "demo"⟩

/-- A valid /slice request asking for images. -/
def reqImages : SliceRequest := ⟨"demo.pptx", none, none, true, "png"⟩

/-- A valid /slice request declining images. -/
def reqNoImages : SliceRequest := ⟨"demo.pptx", none, none, false, "png"⟩

theorem foldl_removeStep_desc {α : Type} (c : Nat) :
    ∀ (j : Nat) (l : List (Nat × α)) (acc : List Nat), j + c ≤ l.length →
      ((List.range' j c).reverse).foldl removeStep (l, acc) =
        (l.take j ++ l.drop (j + c),
         acc ++ (((l.drop j).take c).reverse.map Prod.fst)) := by
  induction c with
  | zero =>
    intro j l acc h
    simp
  | succ c ih =>
    intro j l acc h
    have hj1 : j + 1 ≤ l.length := by omega
    have hjlen : j < l.length := by omega
    have htlen : (l.take (j + 1)).length = j + 1 := by
      simp [List.length_take]; omega
    rw [List.range'_succ, List.reverse_cons, List.foldl_append,
        ih (j + 1) l acc (by omega)]
    simp only [List.foldl_cons, List.foldl_nil]
    unfold removeStep
    have hget : (l.take (j + 1) ++ l.drop (j + 1 + c))[j]? = some l[j] := by
      rw [List.getElem?_append_left (by omega), List.getElem?_take_of_lt (by omega),
          List.getElem?_eq_getElem hjlen]
    rw [hget]
    have herase : (l.take (j + 1) ++ l.drop (j + 1 + c)).eraseIdx j =
        l.take j ++ l.drop (j + (c + 1)) := by
      rw [List.eraseIdx_append_of_lt_length (by omega),
          List.eraseIdx_eq_take_drop_succ, List.take_take,
          List.drop_eq_nil_of_le (by simp [List.length_take])]
      simp
      congr 1
      omega
    rw [herase, List.drop_eq_getElem_cons hjlen, List.take_succ_cons,
        List.reverse_cons, List.map_append]
    simp [List.append_assoc]

theorem range_erase_decomp (n k : Nat) (h : k < n) :
    (List.range n).erase k = List.range k ++ List.range' (k + 1) (n - (k + 1)) := by
  have e : (n - (k + 1)) + (k + 1) = n := by omega
  have h1 : List.range n = List.range (k + 1) ++ List.range' (k + 1) (n - (k + 1)) := by
    calc List.range n = List.range' 0 n := List.range_eq_range' n
      _ = List.range' 0 ((n - (k + 1)) + (k + 1)) := by rw [e]
      _ = List.range' 0 (k + 1) ++ List.range' (0 + (k + 1)) (n - (k + 1)) :=
          (List.range'_append_1 0 (k + 1) (n - (k + 1))).symm
      _ = List.range (k + 1) ++ List.range' (k + 1) (n - (k + 1)) := by
          rw [← List.range_eq_range', Nat.zero_add]
  rw [h1, List.range_succ, List.append_assoc,
      List.erase_append_right _ (by simp [List.mem_range]),
      List.cons_append, List.erase_cons_head]
  simp

theorem makeSingleSlide_eq {α : Type} (pres : List (Nat × α)) (k : Nat) (h : k < pres.length) :
    makeSingleSlide pres k =
      ([pres[k]],
       (pres.drop (k + 1)).reverse.map Prod.fst ++ (pres.take k).reverse.map Prod.fst) := by
  have htlen : (pres.take (k + 1)).length = k + 1 := by
    simp [List.length_take]; omega
  unfold makeSingleSlide
  rw [range_erase_decomp pres.length k h, List.reverse_append, List.foldl_append,
      foldl_removeStep_desc (pres.length - (k + 1)) (k + 1) pres [] (by omega)]
  have e1 : k + 1 + (pres.length - (k + 1)) = pres.length := by omega
  have e2 : pres.length - (k + 1) = (pres.drop (k + 1)).length := by simp
  rw [e1, List.drop_length, List.append_nil, List.nil_append, e2, List.take_length]
  rw [List.range_eq_range' k,
      foldl_removeStep_desc k 0 (pres.take (k + 1)) _ (by omega)]
  congr 1
  · rw [List.take_zero, List.nil_append, Nat.zero_add, List.take_succ,
        List.getElem?_eq_getElem h]
    exact List.drop_left' (by simp [List.length_take]; omega : (pres.take k).length = k)
  · rw [List.drop_zero, List.take_take]
    congr 2
    simp [Nat.min_def]

theorem splitOuts_length {α : Type} (w : World α) (d : Option String) :
    (splitOuts w d).length = w.pres.length := by
  simp [splitOuts]

theorem splitOuts_paths {α : Type} (w : World α) (d : Option String) :
    (splitOuts w d).map SplitOut.path = splitPaths w d := by
  simp [splitOuts, splitPaths]

theorem splitOuts_getElem {α : Type} (w : World α) (d : Option String)
    (k : Nat) (hk : k < w.pres.length) :
    (splitOuts w d)[k]? = some (SplitOut.mk
      (pathJoin (d.getD (pathJoin "output" "pptx"))
        (w.stem ++ "_slide_" ++ toString (k + 1) ++ ".pptx"))
      [w.pres[k]]
      ((w.pres.drop (k + 1)).reverse.map Prod.fst ++ (w.pres.take k).reverse.map Prod.fst)) := by
  simp [splitOuts, List.getElem?_map, List.getElem?_range hk, makeSingleSlide_eq w.pres k hk]

theorem split_pptx_ok {α : Type} (w : World α) (inputFile : String)
    (d : Option String) (h : w.fileExists inputFile = true) :
    split_pptx w inputFile d =
      (.ok (splitOuts w d),
       ⟨[d.getD (pathJoin "output" "pptx")], splitPaths w d⟩) := by
  simp [split_pptx, h, splitOuts_paths]

theorem comExportSlides_none_eq (failAt : Option Nat) (d s e : String) :
    ∀ n, (comExportSlides failAt d s e n).1 = none →
      (comExportSlides failAt d s e n).2 =
        (List.range n).map (fun i => pathJoin d (s ++ "_slide_" ++ toString (i + 1) ++ "." ++ e)) := by
  intro n
  induction n with
  | zero => intro _; rfl
  | succ n ih =>
    intro h
    rcases hm : comExportSlides failAt d s e n with ⟨o, fs⟩
    cases o with
    | some e' =>
      rw [comExportSlides, hm] at h
      simp at h
    | none =>
      rw [comExportSlides, hm] at h ⊢
      by_cases hf : failAt == some (n + 1)
      · simp [hf] at h
      · simp only [hf, Bool.false_eq_true, if_false, if_neg]
        have hfs : fs = (List.range n).map
            (fun i => pathJoin d (s ++ "_slide_" ++ toString (i + 1) ++ "." ++ e)) := by
          have := ih (by rw [hm])
          rwa [hm] at this
        rw [List.range_succ, List.map_append, ← hfs]
        simp [hf]

theorem imagePaths_length (d s f : String) (n : Nat) : (imagePaths d s f n).length = n := by
  simp [imagePaths]

theorem imagePaths_getElem (d s f : String) (n k : Nat) (hk : k < n) :
    (imagePaths d s f n)[k]? =
      some (pathJoin d (s ++ "_slide_" ++ toString (k + 1) ++ "." ++ normExt f)) := by
  simp [imagePaths, List.getElem?_map, List.getElem?_range hk]

theorem export_ok_cases {α : Type} (w : World α) (cfg : ExportCfg)
    (inputFile : String) (dOpt : Option String) (fmt : String) (l : List String)
    (hok : (export_slides_as_images w cfg inputFile dOpt fmt).1 = .ok l) :
    (findLibreOffice cfg ≠ none ∧
       l = imagePaths (dOpt.getD (pathJoin "output" "images")) w.stem fmt cfg.pdfPageCount) ∨
    (findLibreOffice cfg = none ∧
       l = imagePaths (dOpt.getD (pathJoin "output" "images")) w.stem fmt w.pres.length) := by
  rcases hlo : findLibreOffice cfg with _ | cmd
  · right
    refine ⟨rfl, ?_⟩
    rw [export_slides_as_images] at hok
    simp only [hlo] at hok
    cases hwin : cfg.isWindows with
    | false => simp [hwin] at hok
    | true =>
      simp only [hwin, if_true] at hok
      rw [comRun] at hok
      cases hpy : cfg.pywin32 with
      | false => simp [hpy] at hok
      | true =>
        simp only [hpy, if_true] at hok
        rw [comBody] at hok
        cases hcom : cfg.comOpenOk with
        | false => simp [hcom] at hok
        | true =>
          simp only [hcom, if_true] at hok
          rcases hm : comExportSlides cfg.comExportFailAt
              (dOpt.getD (pathJoin "output" "images")) w.stem (normExt fmt) w.pres.length
            with ⟨o, fs⟩
          rw [hm] at hok
          cases o with
          | some e' => simp at hok
          | none =>
            simp only [Except.ok.injEq] at hok
            have := comExportSlides_none_eq cfg.comExportFailAt
              (dOpt.getD (pathJoin "output" "images")) w.stem (normExt fmt)
              w.pres.length (by rw [hm])
            rw [hm] at this
            simp only at this
            rw [← hok, imagePaths]
            exact this
  · left
    refine ⟨by simp [hlo], ?_⟩
    rw [export_slides_as_images] at hok
    simp only [hlo] at hok
    rw [export_slides_libreoffice] at hok
    by_cases h1 : cfg.loReturncode != 0
    · simp [h1] at hok
    · simp only [h1, if_false] at hok
      cases h2 : cfg.pdfCreated with
      | false => simp [h2] at hok
      | true =>
        simp only [h2] at hok
        cases h3 : cfg.pdf2image with
        | false => simp [h3] at hok
        | true =>
          simp only [h3] at hok
          simp only [Bool.not_true, Bool.false_eq_true, if_false,
            Except.ok.injEq] at hok
          rw [← hok, imagePaths]

/-- Claim C4: for a source with N slides, split_pptx returns exactly N outputs
in slide order; the k-th output is named with the 1-based index k+1, contains
exactly the k-th original slide, and its dropped relationship ids are exactly
those of the other slides, removed from a fresh copy of the source. -/
theorem c4_split_one_slide_each {α : Type} (w : World α) (inputFile : String)
    (dOpt : Option String) (h : w.fileExists inputFile = true) :
    ∃ outs : List (SplitOut α),
      (split_pptx w inputFile dOpt).1 = .ok outs ∧
      outs.length = w.pres.length ∧
      ∀ k, (hk : k < w.pres.length) →
        outs[k]? = some (SplitOut.mk
          (pathJoin (dOpt.getD (pathJoin "output" "pptx"))
            (w.stem ++ "_slide_" ++ toString (k + 1) ++ ".pptx"))
          [w.pres[k]]
          ((w.pres.drop (k + 1)).reverse.map Prod.fst ++ (w.pres.take k).reverse.map Prod.fst)) ∧
        ((w.pres.drop (k + 1)).reverse.map Prod.fst ++ (w.pres.take k).reverse.map Prod.fst).Perm
          ((w.pres.eraseIdx k).map Prod.fst) := by
  refine ⟨splitOuts w dOpt, by rw [split_pptx_ok w inputFile dOpt h], splitOuts_length w dOpt, ?_⟩
  intro k hk
  refine ⟨splitOuts_getElem w dOpt k hk, ?_⟩
  rw [List.eraseIdx_eq_take_drop_succ, List.map_append, List.map_reverse, List.map_reverse]
  exact ((List.reverse_perm _).append (List.reverse_perm _)).trans List.perm_append_comm

/-- Witness for C4 at a concrete three-slide presentation. -/
theorem c4_witness :
    wC4.fileExists "talk.pptx" = true ∧
    (∃ outs : List (SplitOut Nat),
      (split_pptx wC4 "talk.pptx" none).1 = .ok outs ∧
      outs.length = wC4.pres.length ∧
      ∀ k, (hk : k < wC4.pres.length) →
        outs[k]? = some (SplitOut.mk
          (pathJoin (Option.getD none (pathJoin "output" "pptx"))
            (wC4.stem ++ "_slide_" ++ toString (k + 1) ++ ".pptx"))
          [wC4.pres[k]]
          ((wC4.pres.drop (k + 1)).reverse.map Prod.fst ++ (wC4.pres.take k).reverse.map Prod.fst)) ∧
        ((wC4.pres.drop (k + 1)).reverse.map Prod.fst ++ (wC4.pres.take k).reverse.map Prod.fst).Perm
          ((wC4.pres.eraseIdx k).map Prod.fst)) :=
  ⟨rfl, c4_split_one_slide_each wC4 "talk.pptx" none rfl⟩

/-- Claim C5: whenever a rendering backend succeeds, export_slides_as_images
returns exactly N image file paths for a source with N slides, one per slide,
in slide order.  The hypothesis pdfPageCount = N models that the external
conversion toolchain rasterizes the presentation into one PDF page per slide,
which the LibreOffice backend relies on. -/
theorem c5_export_count_and_order {α : Type} (w : World α) (cfg : ExportCfg)
    (inputFile : String) (dOpt : Option String) (fmt : String) (l : List String)
    (hpages : cfg.pdfPageCount = w.pres.length)
    (hok : (export_slides_as_images w cfg inputFile dOpt fmt).1 = .ok l) :
    l.length = w.pres.length ∧
    l = imagePaths (dOpt.getD (pathJoin "output" "images")) w.stem fmt w.pres.length := by
  have hc := export_ok_cases w cfg inputFile dOpt fmt l hok
  rcases hc with ⟨_, hl⟩ | ⟨_, hl⟩
  · rw [hpages] at hl
    exact ⟨by rw [hl, imagePaths_length], hl⟩
  · exact ⟨by rw [hl, imagePaths_length], hl⟩

/-- Witness for C5: the LibreOffice backend succeeds on a two-slide source. -/
theorem c5_witness :
    cfgLoOk.pdfPageCount = wTwo.pres.length ∧
    (export_slides_as_images wTwo cfgLoOk "demo.pptx" none "png").1 =
      .ok ["output/images/demo_slide_1.png", "output/images/demo_slide_2.png"] ∧
    (["output/images/demo_slide_1.png", "output/images/demo_slide_2.png"] : List String).length
        = wTwo.pres.length ∧
    ["output/images/demo_slide_1.png", "output/images/demo_slide_2.png"] =
      imagePaths (Option.getD none (pathJoin "output" "images")) wTwo.stem "png" wTwo.pres.length :=
  ⟨rfl, by rfl,
   c5_export_count_and_order wTwo cfgLoOk "demo.pptx" none "png"
     ["output/images/demo_slide_1.png", "output/images/demo_slide_2.png"] rfl (by rfl)⟩

/-- Claim C6: when no LibreOffice executable is found and the platform is not
Windows, export_slides_as_images fails with a RuntimeError whose message
carries installation remediation hints, and no image files are created. -/
theorem c6_no_backend_fatal {α : Type} (w : World α) (cfg : ExportCfg)
    (inputFile : String) (dOpt : Option String) (fmt : String)
    (hwin : cfg.isWindows = false) (hlo : findLibreOffice cfg = none) :
    export_slides_as_images w cfg inputFile dOpt fmt =
      (.error (.runtimeError libreofficeHints),
       ⟨[dOpt.getD (pathJoin "output" "images")], []⟩) ∧
    (∃ pre post, libreofficeHints = pre ++ "Please install LibreOffice" ++ post) := by
  refine ⟨by simp [export_slides_as_images, hlo, hwin], ?_⟩
  exact ⟨"LibreOffice not found. ",
    ":\n- Ubuntu/Debian: sudo apt-get install libreoffice\n- CentOS/RHEL: sudo yum install libreoffice\n- macOS: brew install --cask libreoffice\n- Windows: Download from https://www.libreoffice.org/download/",
    by rfl⟩

/-- Witness for C6 at a concrete configuration with no backend available. -/
theorem c6_witness :
    cfgNone.isWindows = false ∧ findLibreOffice cfgNone = none ∧
    (export_slides_as_images wTwo cfgNone "demo.pptx" none "png" =
      (.error (.runtimeError libreofficeHints),
       ⟨[Option.getD none (pathJoin "output" "images")], []⟩) ∧
    (∃ pre post, libreofficeHints = pre ++ "Please install LibreOffice" ++ post)) :=
  ⟨rfl, by rfl, c6_no_backend_fatal wTwo cfgNone "demo.pptx" none "png" rfl (by rfl)⟩

/-- Claim C9: in the COM backend, once the presentation application has been
started (pywin32 imported and Dispatch executed), Quit is executed on every
exit path: the theorem quantifies over all configurations, so it covers
Presentations.Open failing, Export failing on any slide, and success. -/
theorem c9_com_quit_on_all_paths {α : Type} (w : World α) (cfg : ExportCfg)
    (outputDir fmt : String) (h : cfg.pywin32 = true) :
    ComEvent.quit ∈ (comRun w cfg outputDir fmt).2.1 := by
  simp [comRun, h]

/-- Witness for C9 on the exit path where opening the presentation fails. -/
theorem c9_witness :
    cfgComOpenFail.pywin32 = true ∧
    ComEvent.quit ∈ (comRun wTwo cfgComOpenFail "out" "png").2.1 :=
  ⟨rfl, c9_com_quit_on_all_paths wTwo cfgComOpenFail "out" "png" rfl⟩

/-- Claim C10: the /slice validation is case-insensitive: any path ending in a
letter-casing of .pptx or .ppt passes the extension check, and any
letter-casing of png, jpg or jpeg passes the format check. -/
theorem c10_case_insensitive_validation :
    (∀ p suffix : String, (pyLower suffix = ".pptx" ∨ pyLower suffix = ".ppt") →
       validExtension (p ++ suffix) = true) ∧
    (∀ f : String, (pyLower f = "png" ∨ pyLower f = "jpg" ∨ pyLower f = "jpeg") →
       validImageFormat f = true) := by
  constructor
  · intro p suffix h
    have hdata : (pyLower (p ++ suffix)).data = (pyLower p).data ++ (pyLower suffix).data := by
      simp [pyLower]
    rcases h with h | h
    · have hs : pyEndsWith (pyLower (p ++ suffix)) ".pptx" = true := by
        unfold pyEndsWith
        rw [hdata, h]
        exact List.isSuffixOf_iff_suffix.mpr (List.suffix_append _ _)
      simp [validExtension, hs]
    · have hs : pyEndsWith (pyLower (p ++ suffix)) ".ppt" = true := by
        unfold pyEndsWith
        rw [hdata, h]
        exact List.isSuffixOf_iff_suffix.mpr (List.suffix_append _ _)
      simp [validExtension, hs]
  · intro f h
    rcases h with h | h | h <;> simp [validImageFormat, h]

/-- Witness for C10 at concrete mixed-case inputs. -/
theorem c10_witness :
    (pyLower ".PpTx" = ".pptx" ∨ pyLower ".PpTx" = ".ppt") ∧
    validExtension ("C:/decks/demo" ++ ".PpTx") = true ∧
    (pyLower "JpEg" = "png" ∨ pyLower "JpEg" = "jpg" ∨ pyLower "JpEg" = "jpeg") ∧
    validImageFormat "JpEg" = true :=
  ⟨Or.inl (by decide),
   c10_case_insensitive_validation.1 "C:/decks/demo" ".PpTx" (Or.inl (by decide)),
   Or.inr (Or.inr (by decide)),
   c10_case_insensitive_validation.2 "JpEg" (Or.inr (Or.inr (by decide)))⟩

/-- Claim C7: every output file is named stem_slide_k.ext with k the 1-based
index, image extensions are normalised with alias jpeg becoming jpg, and the
five-slide demo.pptx yields demo_slide_1.pptx through demo_slide_5.pptx. -/
theorem c7_output_naming {α : Type} (w : World α) (cfg : ExportCfg)
    (inputFile : String) (dp di : Option String) (fmt : String) :
    (∀ outs : List (SplitOut α), (split_pptx w inputFile dp).1 = .ok outs →
       outs.map SplitOut.path = splitPaths w dp) ∧
    (∀ l : List String, (export_slides_as_images w cfg inputFile di fmt).1 = .ok l →
       ∀ k, k < l.length →
         l[k]? = some (pathJoin (di.getD (pathJoin "output" "images"))
           (w.stem ++ "_slide_" ++ toString (k + 1) ++ "." ++ normExt fmt))) ∧
    normExt "jpeg" = "jpg" ∧ normExt "png" = "png" ∧ normExt "jpg" = "jpg" ∧
    (split_pptx wDemo5 "demo.pptx" none).2.files =
      ["output/pptx/demo_slide_1.pptx", "output/pptx/demo_slide_2.pptx",
       "output/pptx/demo_slide_3.pptx", "output/pptx/demo_slide_4.pptx",
       "output/pptx/demo_slide_5.pptx"] := by
  refine ⟨?_, ?_, rfl, rfl, rfl, by rfl⟩
  · intro outs hok
    unfold split_pptx at hok
    by_cases h : w.fileExists inputFile
    · simp only [h, if_true, Except.ok.injEq] at hok
      rw [← hok, splitOuts_paths]
    · simp [h] at hok
  · intro l hok k hk
    rcases export_ok_cases w cfg inputFile di fmt l hok with ⟨_, hl⟩ | ⟨_, hl⟩
    · rw [hl] at hk ⊢
      rw [imagePaths_length] at hk
      exact imagePaths_getElem _ _ _ _ _ hk
    · rw [hl] at hk ⊢
      rw [imagePaths_length] at hk
      exact imagePaths_getElem _ _ _ _ _ hk

/-- Witness for C7: instantiated on the five-slide demo world. -/
theorem c7_witness :
    (∀ outs : List (SplitOut Unit), (split_pptx wDemo5 "demo.pptx" none).1 = .ok outs →
       outs.map SplitOut.path = splitPaths wDemo5 none) ∧
    splitPaths wDemo5 none =
      ["output/pptx/demo_slide_1.pptx", "output/pptx/demo_slide_2.pptx",
       "output/pptx/demo_slide_3.pptx", "output/pptx/demo_slide_4.pptx",
       "output/pptx/demo_slide_5.pptx"] :=
  ⟨(c7_output_naming wDemo5 cfgNone "demo.pptx" none none "png").1, by rfl⟩

/-- Claim C1, counterexample: the spec asserts a three-backend fallback chain
in which every backend failure is caught and only exhaustion of all backends
is fatal; since the spec third backend produces a placeholder image whenever
no embedded picture exists, that claim entails the exporter never fails on a
loadable source.  The code refutes it: with a LibreOffice executable found
and its conversion subprocess failing, export_slides_as_images raises
instead of falling back to any further backend. -/
theorem c1_counterexample : ¬ exporterNeverFatal := by
  intro h
  exact absurd (h wUnit cfgLoFail "deck.pptx" none "png") (by decide)

/-- Claim C1, amended: export_slides_as_images selects exactly one backend and
never falls back: the LibreOffice backend whenever an executable is found
(its failures propagate), otherwise the COM backend on Windows, otherwise a
fatal RuntimeError with installation hints; no in-process extraction backend
exists. -/
theorem c1_single_backend_no_fallback {α : Type} (w : World α) (cfg : ExportCfg)
    (inputFile : String) (dOpt : Option String) (fmt : String) :
    (∀ cmd, findLibreOffice cfg = some cmd →
       (export_slides_as_images w cfg inputFile dOpt fmt).1 =
         (export_slides_libreoffice w cfg (dOpt.getD (pathJoin "output" "images")) fmt cmd).1) ∧
    (findLibreOffice cfg = none → cfg.isWindows = true →
       (export_slides_as_images w cfg inputFile dOpt fmt).1 =
         (comRun w cfg (dOpt.getD (pathJoin "output" "images")) fmt).1) ∧
    (findLibreOffice cfg = none → cfg.isWindows = false →
       (export_slides_as_images w cfg inputFile dOpt fmt).1 =
         .error (.runtimeError libreofficeHints)) := by
  refine ⟨?_, ?_, ?_⟩
  · intro cmd hlo
    simp [export_slides_as_images, hlo]
  · intro hlo hwin
    simp [export_slides_as_images, hlo, hwin]
  · intro hlo hwin
    simp [export_slides_as_images, hlo, hwin]

/-- Witness for the amended C1: with LibreOffice present but failing, the
exporter returns exactly the LibreOffice backend error, untouched. -/
theorem c1_amended_witness :
    findLibreOffice cfgLoFail = some "libreoffice" ∧
    (export_slides_as_images wUnit cfgLoFail "deck.pptx" none "png").1 =
      (export_slides_libreoffice wUnit cfgLoFail
        (Option.getD none (pathJoin "output" "images")) "png" "libreoffice").1 :=
  ⟨by rfl,
   (c1_single_backend_no_fallback wUnit cfgLoFail "deck.pptx" none "png").1
     "libreoffice" (by rfl)⟩

/-- Claim C2 (code evaluated at the failing inputs): a /slice request for an
existing file with a non-PowerPoint extension, and one with an unsupported
image format, are answered with HTTP 500 wrapping the intended 400 detail,
because the blanket except clause re-wraps the handler-raised HTTPException;
no directory or file is created on either path. -/
theorem c2_invalid_input_wrapped_500 :
    slice_powerpoint wC2 cfgNone reqC2 =
      (.httpError 500 "Error processing PowerPoint file: 400: File must be a PowerPoint file (.pptx or .ppt)",
       noFs) ∧
    slice_powerpoint wC2 cfgNone reqC2fmt =
      (.httpError 500 "Error processing PowerPoint file: 400: Image format must be \x27png\x27, \x27jpg\x27, or \x27jpeg\x27",
       noFs) := by
  constructor
  · rfl
  · rfl

/-- Claim C3 (code evaluated at the failing input): split_pptx does raise
FileNotFoundError for an absent source, but the /slice handler answers an
absent path with HTTP 500 wrapping the intended 404 detail, because the
blanket except clause re-wraps the handler-raised HTTPException. -/
theorem c3_missing_file_wrapped_500 :
    (split_pptx wC3 "missing.pptx" none).1 =
      .error (.fileNotFoundError "Input file not found: missing.pptx") ∧
    slice_powerpoint wC3 cfgNone reqC3 =
      (.httpError 500 "Error processing PowerPoint file: 404: File not found: missing.pptx",
       noFs) := by
  constructor
  · rfl
  · rfl

/-- Claim C8: for every valid /slice request, with generate_images true the
response aggregates both result lists and total_slides equals the number of
pptx files; with generate_images false the response carries the split-only
result and image_files is None. -/
theorem c8_response_aggregation {α : Type} (w : World α) (cfg : ExportCfg)
    (req : SliceRequest)
    (hex : w.fileExists req.file_path = true)
    (hext : validExtension req.file_path = true)
    (hfmt : validImageFormat req.image_format = true) :
    (∀ imgs : List String, req.generate_images = true →
       (export_slides_as_images w cfg req.file_path req.output_images_dir req.image_format).1 = .ok imgs →
       ∃ r : SliceResponse, (slice_powerpoint w cfg req).1 = .response r ∧
         r.pptx_files = splitPaths w req.output_pptx_dir ∧
         r.image_files = some imgs ∧
         r.total_slides = r.pptx_files.length) ∧
    (req.generate_images = false →
       ∃ r : SliceResponse, (slice_powerpoint w cfg req).1 = .response r ∧
         r.pptx_files = splitPaths w req.output_pptx_dir ∧
         r.image_files = none ∧
         r.total_slides = r.pptx_files.length) := by
  constructor
  · intro imgs hgen hok
    rcases hE : export_slides_as_images w cfg req.file_path req.output_images_dir req.image_format
      with ⟨r0, fx2⟩
    rw [hE] at hok
    simp only at hok
    subst hok
    unfold slice_powerpoint sliceBody split_pptx_with_images
    rw [split_pptx_ok w req.file_path req.output_pptx_dir hex, hE]
    simp only [hex, hext, hfmt, hgen, Bool.not_true, Bool.false_eq_true, if_false, if_true]
    refine ⟨_, rfl, ?_, rfl, ?_⟩
    · exact splitOuts_paths w req.output_pptx_dir
    · simp
  · intro hgen
    unfold slice_powerpoint sliceBody
    rw [split_pptx_ok w req.file_path req.output_pptx_dir hex]
    simp only [hex, hext, hfmt, hgen, Bool.not_true, Bool.false_eq_true, if_false, if_true]
    refine ⟨_, rfl, ?_, rfl, ?_⟩
    · exact splitOuts_paths w req.output_pptx_dir
    · simp

/-- Witness for C8: the full pipeline on the five-slide demo world, once with
images requested and once without. -/
theorem c8_witness :
    wDemo5.fileExists reqImages.file_path = true ∧
    validExtension reqImages.file_path = true ∧
    validImageFormat reqImages.image_format = true ∧
    reqImages.generate_images = true ∧
    (export_slides_as_images wDemo5 cfgLoOk reqImages.file_path
        reqImages.output_images_dir reqImages.image_format).1 =
      .ok ["output/images/demo_slide_1.png", "output/images/demo_slide_2.png"] ∧
    (∃ r : SliceResponse, (slice_powerpoint wDemo5 cfgLoOk reqImages).1 = .response r ∧
       r.pptx_files = splitPaths wDemo5 reqImages.output_pptx_dir ∧
       r.image_files = some ["output/images/demo_slide_1.png", "output/images/demo_slide_2.png"] ∧
       r.total_slides = r.pptx_files.length) ∧
    reqNoImages.generate_images = false ∧
    (∃ r : SliceResponse, (slice_powerpoint wDemo5 cfgLoOk reqNoImages).1 = .response r ∧
       r.pptx_files = splitPaths wDemo5 reqNoImages.output_pptx_dir ∧
       r.image_files = none ∧
       r.total_slides = r.pptx_files.length) :=
  ⟨rfl, by rfl, by rfl, rfl, by rfl,
   (c8_response_aggregation wDemo5 cfgLoOk reqImages rfl (by rfl) (by rfl)).1
     ["output/images/demo_slide_1.png", "output/images/demo_slide_2.png"] rfl (by rfl),
   rfl,
   (c8_response_aggregation wDemo5 cfgLoOk reqNoImages rfl (by rfl) (by rfl)).2 rfl⟩
